import Mathlib

/-!
Verification development for the Ledger.Lift job pipeline
(Netlify functions + shared job library).

Shallow embedding of:
  * src/src/lib/jobs/model.ts   (JobStatus, JobDoc)
  * src/src/lib/jobs/repo.ts    (updateJob)
  * src/netlify/functions/parse-and-extract-background.ts (worker pipeline)
  * the deletion handlers (POST body variant and the legacy query variant)
  * src/netlify/functions/ingest-pdf.ts (admission)
  * the initiate-upload handlers (current and legacy)
  * the complete-multipart handler

External collaborators (S3, the PDF heuristics, file-type sniffing) are
modelled as oracle parameters, matching the specification's scoping: the
pipeline's branching depends on them only through the success or failure
of each check.
-/

namespace LedgerLift

/-- Job status enum from src/src/lib/jobs/model.ts:
QUEUED, PROCESSING, DONE, ERROR, CANCELLED. -/
inductive JobStatus where
  | QUEUED
  | PROCESSING
  | DONE
  | ERROR
  | CANCELLED
deriving DecidableEq, Repr

/-- Terminal statuses of the state machine: DONE, ERROR, CANCELLED
(spec section 4.3: completed, failed, cancelled). -/
def JobStatus.isTerminal : JobStatus → Bool
  | .DONE => true
  | .ERROR => true
  | .CANCELLED => true
  | _ => false

/-- One entry of the progress array on JobDoc: step name and percent. -/
structure ProgressEntry where
  step : String
  pct : Nat
deriving DecidableEq, Repr

/-- Error descriptor on JobDoc: code and message. -/
structure ErrorDescriptor where
  code : String
  message : String
deriving DecidableEq, Repr

/-- Log entry on JobDoc (repo.ts log). -/
structure LogEntry where
  t : String
  lvl : String
  msg : String
deriving DecidableEq, Repr

/-- The S3-JSON job document, from src/src/lib/jobs/model.ts.
Optional TS fields become Option. -/
structure JobDoc where
  jobId : String
  status : JobStatus
  createdAt : String
  updatedAt : String
  sourceKey : String
  exportKey : Option String
  filename : Option String
  size : Option Nat
  progress : Option (List ProgressEntry)
  error : Option ErrorDescriptor
  logs : Option (List LogEntry)
  corr : Option String
deriving DecidableEq, Repr

/-- A patch argument to updateJob, mirroring the TS type
Partial JobDoc restricted to the fields the pipeline actually patches.
A field that is none is absent from the patch and left untouched by
the object spread in updateJob. -/
structure JobPatch where
  status : Option JobStatus := none
  progress : Option (List ProgressEntry) := none
  error : Option ErrorDescriptor := none
  exportKey : Option String := none
  corr : Option String := none
deriving DecidableEq, Repr

/-- updateJob from src/src/lib/jobs/repo.ts: reads the current document,
merges the patch over it by object spread (a key present in the patch
overrides the stored value; absent keys are kept), stamps updatedAt, and
writes the result back.  There is no expected-prior-status condition:
the merge is applied whatever the stored status is. -/
def updateJob (cur : JobDoc) (patch : JobPatch) (now : String) : JobDoc :=
  { cur with
    status := patch.status.getD cur.status
    progress := (patch.progress.map some).getD cur.progress
    error := (patch.error.map some).getD cur.error
    exportKey := (patch.exportKey.map some).getD cur.exportKey
    corr := (patch.corr.map some).getD cur.corr
    updatedAt := now }

/-- Outcome of the opaque stages of one run of
parse-and-extract-background.ts: the file-type sniff can reject the
download (notPdf), classifyTables can find no schedules (noSchedules),
or every stage succeeds (success).  The PDF heuristics themselves are
out of scope and enter only through this branching. -/
inductive PipelineOutcome where
  | notPdf
  | noSchedules
  | success
deriving DecidableEq, Repr

/-- The sequence of updateJob patches issued by the handler of
parse-and-extract-background.ts, in program order, for a run with the
given outcome.  Transcribed from the source: PROCESSING with the
DOWNLOAD progress snapshot first, then one progress snapshot before
each subsequent stage, then the terminal write (ERROR with NOT_PDF or
NO_SCHEDULES on the failing branches, DONE with the export key and the
final 100 percent snapshot on success). -/
def pipelineWrites (jobId corr : String) (o : PipelineOutcome) : List JobPatch :=
  { status := some .PROCESSING, progress := some [⟨"DOWNLOAD", 10⟩], corr := some corr } ::
  match o with
  | .notPdf =>
      [{ status := some .ERROR, error := some ⟨"NOT_PDF", "Uploaded file is not a PDF"⟩ }]
  | .noSchedules =>
      [{ progress := some [⟨"PARSE_PDF", 25⟩] },
       { progress := some [⟨"DETECT_TABLES", 45⟩] },
       { progress := some [⟨"CLASSIFY", 65⟩] },
       { status := some .ERROR, error := some ⟨"NO_SCHEDULES", "No schedules detected"⟩ }]
  | .success =>
      [{ progress := some [⟨"PARSE_PDF", 25⟩] },
       { progress := some [⟨"DETECT_TABLES", 45⟩] },
       { progress := some [⟨"CLASSIFY", 65⟩] },
       { progress := some [⟨"EXPORT_EXCEL", 85⟩] },
       { status := some .DONE,
         exportKey := some (String.append (String.append "exports/" jobId) ".xlsx"),
         progress := some [⟨"DONE", 100⟩] }]

/-- The job document obtained by running the background pipeline on a
stored job: the writes of pipelineWrites applied through updateJob, in
order.  The handler reads the job once by id and patches the same
record; it consults no other state about the job (in particular no
cancellation flag). -/
def runPipeline (job : JobDoc) (corr now : String) (o : PipelineOutcome) : JobDoc :=
  (pipelineWrites job.jobId corr o).foldl (fun j p => updateJob j p now) job

/-- The statuses written by a list of patches, in order. -/
def statusWrites (writes : List JobPatch) : List JobStatus :=
  writes.filterMap (fun p => p.status)

/-- The progress percent values written by a list of patches, in order
(each progress patch of the pipeline replaces the snapshot with a
single entry). -/
def pctWrites (writes : List JobPatch) : List Nat :=
  (writes.filterMap (fun p => p.progress)).flatten.map (fun e => e.pct)

/-! Deletion workflow.  Two handler generations exist in the repository:
the POST body handler (the richer one, matching the embedded
deletion_manifest column described in RELIABILITY_PLAYBOOK.md) and the
legacy query-parameter handler src/netlify/functions/delete-job.ts. -/

/-- One artifact locator of a deletion manifest: type tag, object key,
bucket.  Built by the POST deletion handler from the job row. -/
structure Artifact where
  type : String
  key : String
  bucket : String
deriving DecidableEq, Repr

/-- A deletion manifest value stored on the jobs row.  artifacts is
Option because the handler checks Array.isArray on the stored value
and falls back to recomputation when the stored manifest carries no
artifact array; a manifest the handler itself persisted always does. -/
structure DeletionManifest where
  jobId : String
  userId : String
  status : String
  requestedAt : String
  artifacts : Option (List Artifact)
deriving DecidableEq, Repr

/-- The Postgres jobs row as read by the deletion handlers: id,
user_id, status, source_key, processed_key, export_key, bucket,
deletion_manifest, plus the cancellation_requested column added by the
migration listed in RELIABILITY_PLAYBOOK.md.  A stored manifest that
fails JSON.parse or is not an object is modelled as none, matching the
handler's fallback to undefined. -/
structure JobRow where
  id : String
  userId : String
  status : String
  sourceKey : Option String
  processedKey : Option String
  exportKey : Option String
  bucket : Option String
  deletionManifest : Option DeletionManifest
  cancellationRequested : Bool
deriving DecidableEq, Repr

/-- calculatedArtifacts from the POST deletion handler: the locator
list derived from the job row's source_key, processed_key and
export_key (in that order), tagging each with its kind and the row's
bucket (default bucket name when null), skipping absent keys. -/
def calculatedArtifacts (job : JobRow) : List Artifact :=
  let bucket := job.bucket.getD "default"
  [job.sourceKey.map (fun k => Artifact.mk "incoming" k bucket),
   job.processedKey.map (fun k => Artifact.mk "processed" k bucket),
   job.exportKey.map (fun k => Artifact.mk "export" k bucket)].filterMap id

/-- manifestArtifacts from the POST deletion handler: reuse the stored
manifest's artifact array when one exists, otherwise the freshly
calculated list. -/
def manifestArtifacts (job : JobRow) : List Artifact :=
  match job.deletionManifest with
  | some m =>
    match m.artifacts with
    | some l => l
    | none => calculatedArtifacts job
  | none => calculatedArtifacts job

/-- ASCII lowercasing of one character, the effect of the JS
toLowerCase call on the ASCII status strings the handlers compare. -/
def asciiLowerChar (c : Char) : Char :=
  if Nat.ble 65 c.toNat && Nat.ble c.toNat 90 then Char.ofNat (c.toNat + 32) else c

/-- ASCII lowercasing of a string (structural, so that the kernel can
evaluate it; the job statuses compared are ASCII). -/
def lowerAscii (s : String) : String := ⟨s.data.map asciiLowerChar⟩

/-- The POST deletion handler (request-deletion), transcribed from the
source: it builds a manifest with status PENDING, requestedAt set to
the current time and the manifestArtifacts list, persists it over the
row's deletion_manifest, and then sets cancellation_requested when the
row's status, lowercased, is processing or queued.  Returns the
manifest from the 202 response together with the updated row. -/
def requestDeletion (job : JobRow) (now : String) : DeletionManifest × JobRow :=
  let manifest : DeletionManifest :=
    { jobId := job.id
      userId := job.userId
      status := "PENDING"
      requestedAt := now
      artifacts := some (manifestArtifacts job) }
  let job1 := { job with deletionManifest := some manifest }
  let status := lowerAscii job.status
  let job2 :=
    if status == "processing" || status == "queued" then
      { job1 with cancellationRequested := true }
    else job1
  (manifest, job2)

/-- Whether a job row counts as active for the POST deletion handler:
its status lowercased equals processing or queued. -/
def isActiveStatus (status : String) : Bool :=
  lowerAscii status == "processing" || lowerAscii status == "queued"

/-- The manifest row inserted by the legacy delete-job.ts handler into
the deletion_manifests table: status PENDING and an empty artifact
array (literal empty TEXT array in the SQL). -/
structure LegacyManifestRow where
  jobId : String
  userId : String
  status : String
  artifacts : List String
deriving DecidableEq, Repr

/-- The legacy handler src/netlify/functions/delete-job.ts: inserts a
PENDING manifest row with an empty artifact list (when the job row
exists, which the embedding assumes since it is handed the row), and
sets cancellation_requested only where status equals the exact string
processing. -/
def deleteJobLegacy (job : JobRow) : LegacyManifestRow × JobRow :=
  (⟨job.id, job.userId, "PENDING", []⟩,
   if job.status == "processing" then
     { job with cancellationRequested := true }
   else job)

/-! Admission: src/netlify/functions/ingest-pdf.ts. -/

/-- The ingest request payload: sourceKey, filename, size. -/
structure IngestPayload where
  sourceKey : String
  filename : String
  size : Nat
deriving DecidableEq, Repr

/-- The zod checks of ingestSchema: sourceKey and filename nonempty,
size a positive integer (sizes are Nat in the embedding, so positivity
is the residual check). -/
def ingestValid (p : IngestPayload) : Bool :=
  0 < p.sourceKey.length && 0 < p.filename.length && 0 < p.size

/-- Result of the ingest handler.  queued is the only success shape the
handler can produce: a fresh random job id with literal status QUEUED.
The handler touches no job store, so the result is a function of the
payload, the stored object's ContentLength, and the file-type sniff of
the first bytes alone. -/
inductive IngestResult where
  | invalidPayload
  | sizeMismatch
  | notPdf
  | queued (status : String)
deriving DecidableEq, Repr

/-- The ingest-pdf handler: 400 on invalid payload, 409 when the stored
object's ContentLength is a number different from the declared size,
415 when the sniffed preview is not a PDF, otherwise 200 with a fresh
job id and status QUEUED.  No job row is read or written, and no
content hash is computed or compared. -/
def ingestPdf (p : IngestPayload) (headContentLength : Option Nat) (isPdf : Bool) :
    IngestResult :=
  if !ingestValid p then .invalidPayload
  else if (headContentLength.map (fun n => n != p.size)).getD false then .sizeMismatch
  else if !isPdf then .notPdf
  else .queued "QUEUED"

/-! Upload initiation.  Two generations: the current handler (S3
constants, single versus multipart presigning) and the legacy one
(SIZE_LIMIT error code). -/

/-- S3 minimum part size from the current initiate-upload handler:
5 MiB. -/
def MIN_PART_SIZE : Nat := 5 * 1024 * 1024

/-- S3 maximum part size: 5 GiB. -/
def MAX_PART_SIZE : Nat := 5 * 1024 * 1024 * 1024

/-- S3 maximum number of parts. -/
def MAX_PARTS : Nat := 10000

/-- Largest processable upload: MAX_PART_SIZE times MAX_PARTS. -/
def MAX_PROCESSABLE : Nat := MAX_PART_SIZE * MAX_PARTS

/-- Ceiling division on Nat, the Math.ceil of a quotient as the handler
computes it (the operands stay far below 2 to the 53rd, where the
JavaScript float division and the exact ceiling agree on every branch
the proofs use). -/
def ceilDiv (a b : Nat) : Nat := (a + b - 1) / b

/-- The multipart part size chosen by the current initiate-upload
handler: clamp to at least MIN_PART_SIZE and the configured multipart
threshold and at least size over MAX_PARTS rounded up, cap at
MAX_PART_SIZE, then round up to a whole MiB. -/
def partSizeOf (threshold size : Nat) : Nat :=
  let p1 := max (max MIN_PART_SIZE threshold) (ceilDiv size MAX_PARTS)
  let p2 := min p1 MAX_PART_SIZE
  ceilDiv p2 (1024 * 1024) * (1024 * 1024)

/-- The number of presigned parts the handler issues:
Math.ceil of size over the chosen part size. -/
def partCountOf (threshold size : Nat) : Nat :=
  ceilDiv size (partSizeOf threshold size)

/-- Environment configuration consumed by the upload handlers. -/
structure UploadEnv where
  pdfMaxBytes : Nat
  multipartThresholdBytes : Nat
deriving DecidableEq, Repr

/-- The upload request payload of the current initiate-upload handler.
The sha fields are carried opaquely; their format checks are part of
uploadRequestValid. -/
structure UploadRequest where
  filename : String
  size : Nat
  contentType : String
  sha256 : String
  sha256Base64 : String
deriving DecidableEq, Repr

/-- A hexadecimal digit as in the regex character class a-fA-F0-9. -/
def isHexChar (c : Char) : Bool :=
  c.isDigit || (Nat.ble 97 c.toNat && Nat.ble c.toNat 102) ||
    (Nat.ble 65 c.toNat && Nat.ble c.toNat 70)

/-- The zod checks of uploadRequestSchema: nonempty filename and
contentType, positive integral size, sha256 a 64 character hex string
(the base64 field's check is carried as nonemptiness of a base64-shaped
string; the claims do not depend on it). -/
def uploadRequestValid (r : UploadRequest) : Bool :=
  0 < r.filename.length && 0 < r.size && 0 < r.contentType.length &&
  r.sha256.length == 64 && r.sha256.toList.all isHexChar &&
  0 < r.sha256Base64.length

/-- Result of the current initiate-upload handler.  Upload state
(a CreateMultipartUpload on the bucket) comes into existence only in
the multipart constructor; every reject constructor returns before any
storage command is sent. -/
inductive UploadResult where
  | invalid
  | unsupportedType
  | tooLarge
  | tooLargeProcessable
  | single
  | multipart (partSize : Nat) (partCount : Nat)
deriving DecidableEq, Repr

/-- The current initiate-upload handler, in source order: 400 on an
invalid payload, 415 unless contentType is application/pdf, 413 when
size exceeds PDF_MAX_BYTES, 413 when size exceeds MAX_PROCESSABLE,
then a single presigned PUT below the multipart threshold and a
multipart plan otherwise. -/
def initiateUpload (env : UploadEnv) (r : UploadRequest) : UploadResult :=
  if !uploadRequestValid r then .invalid
  else if r.contentType != "application/pdf" then .unsupportedType
  else if env.pdfMaxBytes < r.size then .tooLarge
  else if MAX_PROCESSABLE < r.size then .tooLargeProcessable
  else if r.size < env.multipartThresholdBytes then .single
  else .multipart (partSizeOf env.multipartThresholdBytes r.size)
         (partCountOf env.multipartThresholdBytes r.size)

/-- Result of the legacy upload handler: 400 on a bad body, 413 with
error code SIZE_LIMIT over the configured megabyte limit, otherwise a
multipart plan.  The errorCode field carries the code property of the
413 response. -/
inductive LegacyUploadResult where
  | badRequest
  | sizeLimit (httpStatus : Nat) (errorCode : String)
  | planned
deriving DecidableEq, Repr

/-- The legacy upload handler: maxBytes is PDF_MAX_MB megabytes; a
size above it is rejected with HTTP 413 and code SIZE_LIMIT before any
upload is planned. -/
def legacyUpload (pdfMaxMb : Nat) (filenameLen size : Nat) : LegacyUploadResult :=
  if filenameLen == 0 || size == 0 then .badRequest
  else if pdfMaxMb * 1024 * 1024 < size then .sizeLimit 413 "SIZE_LIMIT"
  else .planned

/-! Multipart completion: the complete-multipart handler. -/

/-- One input part of the completion payload: partNumber (a positive
integer under the zod schema) and the raw etag string. -/
structure UploadPart where
  partNumber : Nat
  etag : String
deriving DecidableEq, Repr

/-- One part as forwarded to CompleteMultipartUpload: PartNumber and
the normalized ETag. -/
structure ForwardedPart where
  partNumber : Nat
  eTag : String
deriving DecidableEq, Repr

/-- normalizeEtag from the handler: the regex replace anchored at both
ends removes one leading double quote when present and one trailing
double quote when present, and nothing else.  On a string of a single
double quote the leading removal consumes it.  Interior quotes are
untouched. -/
def normalizeEtag (etag : String) : String :=
  let s := if etag.startsWith "\"" then etag.drop 1 else etag
  if s.endsWith "\"" then s.dropRight 1 else s

/-- The numeric comparator handed to Array.prototype.sort: ascending
partNumber. -/
def partLe (a b : UploadPart) : Bool := Nat.ble a.partNumber b.partNumber

/-- orderedParts from the handler: the input parts, copied and sorted
ascending by partNumber (Array.prototype.sort is a stable sort under a
consistent comparator; mergeSort is the matching stable sort). -/
def orderedParts (parts : List UploadPart) : List UploadPart :=
  parts.mergeSort partLe

/-- The completion payload: uploadId, sourceKey, parts. -/
structure CompletionPayload where
  uploadId : String
  sourceKey : String
  parts : List UploadPart
deriving DecidableEq, Repr

/-- The zod checks of completionSchema: uploadId and sourceKey
nonempty, at least one part, each partNumber a positive integer and
each etag nonempty. -/
def completionValid (p : CompletionPayload) : Bool :=
  0 < p.uploadId.length && 0 < p.sourceKey.length && 0 < p.parts.length &&
  p.parts.all (fun part => 0 < part.partNumber && 0 < part.etag.length)

/-- The sourceKey guard of the handler: the case-insensitive regex
requires the prefix uploads slash, sixty-four hex characters, then a
slash (stated on the character list so the kernel can evaluate it). -/
def sourceKeyOk (s : String) : Bool :=
  let cs := s.data
  (cs.take 8 == "uploads/".data) &&
  ((cs.drop 8).take 64).length == 64 &&
  ((cs.drop 8).take 64).all isHexChar &&
  ((cs.drop 72).take 1 == "/".data)

/-- Result of the complete-multipart handler: 400 on an invalid
payload, 400 on a sourceKey failing the pattern, otherwise the
CompleteMultipartUpload command whose Parts field holds the sorted,
etag-normalized part list. -/
inductive CompletionResult where
  | invalid
  | badSourceKey
  | completed (parts : List ForwardedPart)
deriving DecidableEq, Repr

/-- The complete-multipart handler, transcribed in source order. -/
def completeMultipart (p : CompletionPayload) : CompletionResult :=
  if !completionValid p then .invalid
  else if !sourceKeyOk p.sourceKey then .badSourceKey
  else .completed ((orderedParts p.parts).map
    (fun part => ⟨part.partNumber, normalizeEtag part.etag⟩))

/-! Concrete fixtures used by the closed theorems. -/

/-- A queued job document as stored by the TS stack. -/
def exampleJob : JobDoc :=
  { jobId := "job-1"
    status := .QUEUED
    createdAt := "t0"
    updatedAt := "t0"
    sourceKey := "incoming/1_doc.pdf"
    exportKey := none
    filename := some "doc.pdf"
    size := some 1000
    progress := none
    error := none
    logs := none
    corr := none }

/-- The same job as a Postgres row before any deletion request. -/
def exampleRow : JobRow :=
  { id := "job-1"
    userId := "u1"
    status := "queued"
    sourceKey := some "incoming/1_doc.pdf"
    processedKey := none
    exportKey := none
    bucket := none
    deletionManifest := none
    cancellationRequested := false }

/-- exampleJob after a completed run: terminal DONE status. -/
def doneJob : JobDoc := { exampleJob with status := .DONE }

/-! Helper lemmas. -/

lemma runPipeline_status (job : JobDoc) (corr now : String) (o : PipelineOutcome) :
    (runPipeline job corr now o).status =
      (match o with
       | .success => JobStatus.DONE
       | .notPdf => JobStatus.ERROR
       | .noSchedules => JobStatus.ERROR) := by
  cases o <;> rfl

lemma pctWrites_pipeline (jobId corr : String) (o : PipelineOutcome) :
    pctWrites (pipelineWrites jobId corr o) =
      (match o with
       | .notPdf => [10]
       | .noSchedules => [10, 25, 45, 65]
       | .success => [10, 25, 45, 65, 85, 100]) := by
  cases o <;> rfl

/-- Claim C1: the worker pipeline is claimed to consult the cancellation
state before each stage and to abort with CANCELLED, so that a job with
cancellation requested never reaches DONE.  The code has no such
checkpoint: at the concrete failing input (a queued job whose
cancellation-requested flag the POST deletion handler has just set), a
replayed or in-flight pipeline run still executes every stage, writes
DONE, and never writes CANCELLED.  The handler's only job input is the
JobDoc fetched by id, which carries no cancellation flag at all, so the
run below is the run the code performs whatever the flag's value. -/
theorem C1_cancellation_ignored_reaches_done :
    (requestDeletion exampleRow "t0").2.cancellationRequested = true ∧
    (runPipeline exampleJob "c1" "t1" PipelineOutcome.success).status = JobStatus.DONE ∧
    JobStatus.CANCELLED ∉ statusWrites (pipelineWrites "job-1" "c1" PipelineOutcome.success) := by
  refine ⟨by decide, rfl, by decide⟩

/-- Counterexample to claim C5: status writes are not guarded by an
expected-prior-status check.  The pipeline's first write, applied by
updateJob to a job already in the terminal DONE status (the replay
scenario the claim addresses), overwrites DONE with the non-terminal
PROCESSING. -/
theorem C5_replay_overwrites_terminal :
    JobStatus.isTerminal doneJob.status = true ∧
    JobStatus.isTerminal JobStatus.PROCESSING = false ∧
    (updateJob doneJob
      ((pipelineWrites doneJob.jobId "c1" PipelineOutcome.success).headD {}) "t2").status =
      JobStatus.PROCESSING := by
  refine ⟨rfl, rfl, rfl⟩

/-- Claim C5 (amended): every run of the pipeline writes statuses in
the order PROCESSING followed by exactly one terminal status, but no
status write is guarded by an expected-prior-status check: updateJob
overwrites the stored status unconditionally, whatever the current
status is, so a replayed message can set a terminal job back to
PROCESSING. -/
theorem C5_amended_unguarded_state_machine :
    (∀ (cur : JobDoc) (patch : JobPatch) (now : String) (s : JobStatus),
        patch.status = some s → (updateJob cur patch now).status = s) ∧
    (∀ (jobId corr : String) (o : PipelineOutcome),
        ∃ t, statusWrites (pipelineWrites jobId corr o) = [JobStatus.PROCESSING, t] ∧
          t.isTerminal = true) := by
  constructor
  · intro cur patch now s h
    simp [updateJob, h]
  · intro jobId corr o
    cases o
    · exact ⟨JobStatus.ERROR, rfl, rfl⟩
    · exact ⟨JobStatus.ERROR, rfl, rfl⟩
    · exact ⟨JobStatus.DONE, rfl, rfl⟩

/-- Witness for the amended claim C5, at the concrete replayed job. -/
theorem C5_amended_witness :
    (updateJob doneJob { status := some JobStatus.PROCESSING } "t2").status =
      JobStatus.PROCESSING ∧
    (∃ t, statusWrites (pipelineWrites "job-1" "c1" PipelineOutcome.success) =
      [JobStatus.PROCESSING, t] ∧ t.isTerminal = true) :=
  ⟨C5_amended_unguarded_state_machine.1 doneJob { status := some JobStatus.PROCESSING } "t2"
      JobStatus.PROCESSING rfl,
   C5_amended_unguarded_state_machine.2 "job-1" "c1" PipelineOutcome.success⟩

/-- Claim C8: every progress snapshot the pipeline writes has a percent
within 0 and 100 (percents are Nat here, so the lower bound is
inherent), the successive percent values of one run are non-decreasing,
100 is written exactly on the successful run, and the run ends in DONE
exactly when it succeeds. -/
theorem C8_progress_monotone_and_complete :
    ∀ (jobId corr : String) (o : PipelineOutcome),
      (∀ pct ∈ pctWrites (pipelineWrites jobId corr o), pct ≤ 100) ∧
      List.Chain' (fun a b => a ≤ b) (pctWrites (pipelineWrites jobId corr o)) ∧
      ((100 ∈ pctWrites (pipelineWrites jobId corr o)) ↔ o = .success) ∧
      (∀ (job : JobDoc) (now : String),
        (runPipeline job corr now o).status = JobStatus.DONE ↔ o = .success) := by
  intro jobId corr o
  refine ⟨?_, ?_, ?_, ?_⟩
  · rw [pctWrites_pipeline]
    cases o <;> decide
  · rw [pctWrites_pipeline]
    cases o <;> simp [List.chain'_cons]
  · rw [pctWrites_pipeline]
    cases o <;> simp
  · intro job now
    rw [runPipeline_status]
    cases o <;> simp

/-- Witness for claim C8 at a concrete run. -/
theorem C8_progress_witness :
    (100 : Nat) ∈ pctWrites (pipelineWrites "job-1" "c1" PipelineOutcome.success) ∧
    (100 : Nat) ≤ 100 :=
  ⟨by decide,
   (C8_progress_monotone_and_complete "job-1" "c1" PipelineOutcome.success).1 100 (by decide)⟩

/-- A stored deletion manifest in the non-terminal DELETING state. -/
def deletingManifest : DeletionManifest :=
  { jobId := "job-2"
    userId := "u1"
    status := "DELETING"
    requestedAt := "t0"
    artifacts := some [⟨"incoming", "incoming/2_doc.pdf", "b"⟩] }

/-- A processing job row already carrying deletingManifest. -/
def rowWithManifest : JobRow :=
  { id := "job-2"
    userId := "u1"
    status := "processing"
    sourceKey := some "incoming/2_doc.pdf"
    processedKey := none
    exportKey := none
    bucket := some "b"
    deletionManifest := some deletingManifest
    cancellationRequested := false }

/-- Counterexample to claim C2: requestDeletion is not idempotent in
the claimed sense.  Re-invoked on a job whose stored manifest is in
the non-terminal DELETING state, it returns a manifest whose status
(PENDING) and requested timestamp (the new invocation time) differ
from the stored ones, and it overwrites the stored manifest with that
new value. -/
theorem C2_counterexample_not_idempotent :
    deletingManifest.status = "DELETING" ∧
    (requestDeletion rowWithManifest "t1").1.status ≠ deletingManifest.status ∧
    (requestDeletion rowWithManifest "t1").1.requestedAt ≠ deletingManifest.requestedAt ∧
    (requestDeletion rowWithManifest "t1").2.deletionManifest ≠ some deletingManifest := by
  refine ⟨rfl, by decide, by decide, by decide⟩

/-- Claim C2 (amended): re-invoking requestDeletion on a job with an
existing manifest preserves only the stored artifact list; the
returned manifest has status PENDING and requestedAt equal to the new
invocation time, and this new manifest is persisted over the stored
one. -/
theorem C2_amended_reinvocation :
    ∀ (job : JobRow) (now : String) (m : DeletionManifest) (l : List Artifact),
      job.deletionManifest = some m → m.artifacts = some l →
      (requestDeletion job now).1.artifacts = some l ∧
      (requestDeletion job now).1.status = "PENDING" ∧
      (requestDeletion job now).1.requestedAt = now ∧
      (requestDeletion job now).2.deletionManifest = some (requestDeletion job now).1 := by
  intro job now m l h1 h2
  refine ⟨?_, rfl, rfl, ?_⟩
  · simp [requestDeletion, manifestArtifacts, h1, h2]
  · simp only [requestDeletion]
    split <;> rfl

/-- Witness for the amended claim C2 at the concrete re-invocation. -/
theorem C2_amended_witness :
    (requestDeletion rowWithManifest "t1").1.artifacts =
      some [⟨"incoming", "incoming/2_doc.pdf", "b"⟩] ∧
    (requestDeletion rowWithManifest "t1").1.status = "PENDING" ∧
    (requestDeletion rowWithManifest "t1").1.requestedAt = "t1" ∧
    (requestDeletion rowWithManifest "t1").2.deletionManifest =
      some (requestDeletion rowWithManifest "t1").1 :=
  C2_amended_reinvocation rowWithManifest "t1" deletingManifest
    [⟨"incoming", "incoming/2_doc.pdf", "b"⟩] rfl rfl

/-- Claim C3: the manifest's artifact list is computed once, at request
time, from the job row's source, processed and export keys (the
calculatedArtifacts list), and later invocations do not recompute it:
when the stored manifest carries an artifact list, that list is
returned and re-persisted verbatim rather than derived afresh from the
job row. -/
theorem C3_artifact_list_computed_once :
    ∀ (job : JobRow) (now : String),
      (job.deletionManifest = none →
        (requestDeletion job now).1.artifacts = some (calculatedArtifacts job)) ∧
      (∀ (m : DeletionManifest) (l : List Artifact),
        job.deletionManifest = some m → m.artifacts = some l →
        (requestDeletion job now).1.artifacts = some l ∧
        (requestDeletion job now).2.deletionManifest = some (requestDeletion job now).1) := by
  intro job now
  constructor
  · intro h
    simp [requestDeletion, manifestArtifacts, h]
  · intro m l h1 h2
    refine ⟨?_, ?_⟩
    · simp [requestDeletion, manifestArtifacts, h1, h2]
    · simp only [requestDeletion]
      split <;> rfl

/-- Witness for claim C3: a fresh request computes the list from the
row's keys, and the re-invocation on rowWithManifest keeps the stored
list. -/
theorem C3_artifact_list_witness :
    (requestDeletion exampleRow "t0").1.artifacts =
      some (calculatedArtifacts exampleRow) ∧
    (requestDeletion rowWithManifest "t2").1.artifacts =
      some [⟨"incoming", "incoming/2_doc.pdf", "b"⟩] :=
  ⟨(C3_artifact_list_computed_once exampleRow "t0").1 rfl,
   ((C3_artifact_list_computed_once rowWithManifest "t2").2 deletingManifest
     [⟨"incoming", "incoming/2_doc.pdf", "b"⟩] rfl rfl).1⟩

/-- A queued job row addressed through the legacy delete-job endpoint. -/
def queuedRow : JobRow :=
  { id := "job-3"
    userId := "u1"
    status := "queued"
    sourceKey := some "incoming/3_doc.pdf"
    processedKey := none
    exportKey := none
    bucket := none
    deletionManifest := none
    cancellationRequested := false }

/-- Counterexample to claim C4: the legacy delete-job handler leaves a
queued (hence active) job's cancellation-requested flag unchanged, so
requestDeletion does not set the flag for every active job: its SQL
update matches only the exact status string processing. -/
theorem C4_counterexample_queued_not_flagged :
    isActiveStatus queuedRow.status = true ∧
    (deleteJobLegacy queuedRow).2.cancellationRequested = false := by
  refine ⟨by decide, rfl⟩

/-- Claim C4 (amended): the POST deletion handler sets the
cancellation-requested flag iff the job's lowercased status is
processing or queued, leaving the flag of a terminal job unchanged;
the legacy delete-job endpoint instead sets it exactly when the status
is the literal string processing, so an active queued job's flag is
left unchanged there. -/
theorem C4_amended_cancellation_flag :
    (∀ (job : JobRow) (now : String),
      (isActiveStatus job.status = true →
        (requestDeletion job now).2.cancellationRequested = true) ∧
      (isActiveStatus job.status = false →
        (requestDeletion job now).2.cancellationRequested = job.cancellationRequested)) ∧
    (∀ job : JobRow,
      (deleteJobLegacy job).2.cancellationRequested =
        ((job.status == "processing") || job.cancellationRequested)) := by
  constructor
  · intro job now
    constructor
    · intro h
      simp only [requestDeletion, isActiveStatus] at h ⊢
      rw [h]
      rfl
    · intro h
      simp only [requestDeletion, isActiveStatus] at h ⊢
      rw [h]
      rfl
  · intro job
    simp only [deleteJobLegacy]
    cases h : job.status == "processing" <;> simp [h]

/-- Witness for the amended claim C4: both branches at concrete rows. -/
theorem C4_amended_witness :
    (requestDeletion queuedRow "t0").2.cancellationRequested = true ∧
    (deleteJobLegacy queuedRow).2.cancellationRequested =
      ((queuedRow.status == "processing") || queuedRow.cancellationRequested) :=
  ⟨(C4_amended_cancellation_flag.1 queuedRow "t0").1 (by decide),
   C4_amended_cancellation_flag.2 queuedRow⟩

/-- A valid ingest payload whose content, for the dedup scenario, is
assumed identical to a previously completed job's content. -/
def ingestExample : IngestPayload :=
  { sourceKey := "uploads/hash/doc.pdf", filename := "doc.pdf", size := 1000 }

/-- Counterexample to claim C6: admission never short-circuits.  At a
concrete valid admission (matching stored size, sniffed as PDF) the
ingest handler returns a fresh job with literal status QUEUED, not a
completed status.  The handler's result does not depend on any job
store: it reads none, computes no content hash, and compares nothing
against prior completed jobs, so this is the result even when a prior
completed job with the same canonical content exists.  (DONE is the
completed status of this stack's job model.) -/
theorem C6_counterexample_no_dedup :
    ingestPdf ingestExample (some 1000) true = IngestResult.queued "QUEUED" ∧
    "QUEUED" ≠ "DONE" := by
  refine ⟨rfl, by decide⟩

/-- Claim C6 (amended): admission performs no dedup short-circuit.
Every valid admission whose stored object length matches the declared
size and whose preview sniffs as PDF yields a fresh job in QUEUED
status — including admissions of content identical to a prior
completed job, since the handler consults no job store and no content
hash. -/
theorem C6_amended_admission_always_queued :
    ∀ (p : IngestPayload) (headContentLength : Option Nat) (isPdf : Bool),
      ingestValid p = true →
      (∀ n, headContentLength = some n → n = p.size) →
      isPdf = true →
      ingestPdf p headContentLength isPdf = IngestResult.queued "QUEUED" := by
  intro p hcl isPdf hval hmatch hpdf
  simp only [ingestPdf, hval, hpdf]
  cases hcl with
  | none => rfl
  | some n =>
    have hn := hmatch n rfl
    simp [hn]

/-- Witness for the amended claim C6 at the concrete admission. -/
theorem C6_amended_witness :
    ingestPdf ingestExample (some ingestExample.size) true = IngestResult.queued "QUEUED" :=
  C6_amended_admission_always_queued ingestExample (some ingestExample.size) true
    (by decide) (fun n h => by injection h; omega) rfl

/-- Counterexample to claim C7: an over-limit upload request is
rejected, but with HTTP 413 and the error code SIZE_LIMIT (the legacy
initiate-upload handler; the current one returns a 413 size message),
not with a QUOTA_EXCEEDED error. -/
theorem C7_counterexample_not_quota_exceeded :
    legacyUpload 50 7 (50 * 1024 * 1024 + 1) =
      LegacyUploadResult.sizeLimit 413 "SIZE_LIMIT" ∧
    "SIZE_LIMIT" ≠ "QUOTA_EXCEEDED" := by
  refine ⟨by decide, by decide⟩

/-- Claim C7 (amended): a request whose declared size exceeds the
configured limit is rejected synchronously with an HTTP 413 size-limit
error (code SIZE_LIMIT in the legacy handler) rather than
QUOTA_EXCEEDED; the rejection happens before any upload state or job
row comes into existence (only the single and multipart results carry
storage effects), and an in-limit request is never rejected on size
grounds. -/
theorem C7_amended_size_rejection :
    (∀ (env : UploadEnv) (r : UploadRequest),
      uploadRequestValid r = true → r.contentType = "application/pdf" →
      env.pdfMaxBytes < r.size →
      initiateUpload env r = UploadResult.tooLarge) ∧
    (∀ (env : UploadEnv) (r : UploadRequest),
      env.pdfMaxBytes < r.size →
      (∀ ps pc, initiateUpload env r ≠ UploadResult.multipart ps pc) ∧
      initiateUpload env r ≠ UploadResult.single) ∧
    (∀ (env : UploadEnv) (r : UploadRequest),
      r.size ≤ env.pdfMaxBytes → r.size ≤ MAX_PROCESSABLE →
      initiateUpload env r ≠ UploadResult.tooLarge ∧
      initiateUpload env r ≠ UploadResult.tooLargeProcessable) ∧
    (∀ (pdfMaxMb filenameLen size : Nat),
      0 < filenameLen → 0 < size → pdfMaxMb * 1024 * 1024 < size →
      legacyUpload pdfMaxMb filenameLen size =
        LegacyUploadResult.sizeLimit 413 "SIZE_LIMIT") := by
  refine ⟨?_, ?_, ?_, ?_⟩
  · intro env r hval htype hsize
    simp [initiateUpload, hval, htype, hsize]
  · intro env r hsize
    simp only [initiateUpload]
    split
    · exact ⟨fun ps pc => by simp, by simp⟩
    · split
      · exact ⟨fun ps pc => by simp, by simp⟩
      · exact ⟨fun ps pc => by simp, by simp⟩
  · intro env r hsize hproc
    simp only [initiateUpload]
    split
    · simp
    · split
      · simp
      · split
        · rename_i hlt
          exact absurd hsize (by omega)
        · split
          · rename_i hlt
            exact absurd hproc (by omega)
          · split <;> simp
  · intro mb fl size hfl hsize hlim
    have h1 : (fl == 0 || size == 0) = false := by
      simp only [Bool.or_eq_false_iff, beq_eq_false_iff_ne]
      omega
    simp [legacyUpload, h1, hlim]

/-- Witness for the amended claim C7 at concrete requests. -/
theorem C7_amended_witness :
    initiateUpload ⟨52428800, 8388608⟩
      ⟨"doc.pdf", 52428801, "application/pdf",
        "aaaaaaaaaaaaaaaaaaaaaaaaaaaaaaaaaaaaaaaaaaaaaaaaaaaaaaaaaaaaaaaa", "QUJD"⟩ =
      UploadResult.tooLarge ∧
    legacyUpload 50 7 52428801 = LegacyUploadResult.sizeLimit 413 "SIZE_LIMIT" :=
  ⟨C7_amended_size_rejection.1 ⟨52428800, 8388608⟩
      ⟨"doc.pdf", 52428801, "application/pdf",
        "aaaaaaaaaaaaaaaaaaaaaaaaaaaaaaaaaaaaaaaaaaaaaaaaaaaaaaaaaaaaaaaa", "QUJD"⟩
      (by decide) rfl (by decide),
   C7_amended_size_rejection.2.2.2 50 7 52428801 (by decide) (by decide) (by decide)⟩

lemma le_ceilDiv_mul (a b : Nat) (hb : 0 < b) : a ≤ ceilDiv a b * b := by
  have h := (@Nat.div_le_iff_le_mul_add_pred (a + b - 1) b ((a + b - 1) / b) hb).1 (le_refl _)
  unfold ceilDiv
  generalize hq : (a + b - 1) / b = q at h
  have hbq : b * q = q * b := Nat.mul_comm b q
  omega

lemma ceilDiv_le_iff (a b k : Nat) (hb : 0 < b) : ceilDiv a b ≤ k ↔ a ≤ k * b := by
  unfold ceilDiv
  rw [Nat.div_le_iff_le_mul_add_pred hb]
  have hbk : b * k = k * b := Nat.mul_comm b k
  omega

/-- Claim C9: for every accepted upload size (a positive byte count of
at most MAX_PART_SIZE times MAX_PARTS) and every multipart threshold
configuration, the part size the initiate-upload handler computes is a
whole number of MiB between MIN_PART_SIZE (5 MiB) and MAX_PART_SIZE
(5 GiB) inclusive, and the resulting part count, the rounded-up
quotient of size by part size, never exceeds MAX_PARTS (10000). -/
theorem C9_part_size_bounds :
    ∀ (threshold size : Nat), 0 < size → size ≤ MAX_PROCESSABLE →
      (1024 * 1024) ∣ partSizeOf threshold size ∧
      MIN_PART_SIZE ≤ partSizeOf threshold size ∧
      partSizeOf threshold size ≤ MAX_PART_SIZE ∧
      partCountOf threshold size ≤ MAX_PARTS := by
  intro threshold size _hpos hmax
  have hM : 0 < 1024 * 1024 := by decide
  have hParts : 0 < MAX_PARTS := by decide
  set p1 := max (max MIN_PART_SIZE threshold) (ceilDiv size MAX_PARTS) with hp1
  set p2 := min p1 MAX_PART_SIZE with hp2
  have hps : partSizeOf threshold size = ceilDiv p2 (1024 * 1024) * (1024 * 1024) := rfl
  have hmin_le_p1 : MIN_PART_SIZE ≤ p1 := le_trans (le_max_left _ _) (le_max_left _ _)
  have hmin_le_p2 : MIN_PART_SIZE ≤ p2 := le_min hmin_le_p1 (by decide)
  have hp2_le_max : p2 ≤ MAX_PART_SIZE := min_le_right _ _
  have hp2_le_ps : p2 ≤ partSizeOf threshold size := by
    rw [hps]; exact le_ceilDiv_mul p2 (1024 * 1024) hM
  have hps_pos : 0 < partSizeOf threshold size :=
    lt_of_lt_of_le (by decide : 0 < MIN_PART_SIZE) (le_trans hmin_le_p2 hp2_le_ps)
  refine ⟨⟨ceilDiv p2 (1024 * 1024), by rw [hps, Nat.mul_comm]⟩, ?_, ?_, ?_⟩
  · exact le_trans hmin_le_p2 hp2_le_ps
  · rw [hps]
    have h5120 : ceilDiv p2 (1024 * 1024) ≤ 5120 := by
      rw [ceilDiv_le_iff _ _ _ hM]
      calc p2 ≤ MAX_PART_SIZE := hp2_le_max
        _ = 5120 * (1024 * 1024) := by decide
    calc ceilDiv p2 (1024 * 1024) * (1024 * 1024) ≤ 5120 * (1024 * 1024) :=
          Nat.mul_le_mul_right _ h5120
      _ = MAX_PART_SIZE := by decide
  · have hc_le_max : ceilDiv size MAX_PARTS ≤ MAX_PART_SIZE := by
      rw [ceilDiv_le_iff _ _ _ hParts]
      calc size ≤ MAX_PROCESSABLE := hmax
        _ = MAX_PART_SIZE * MAX_PARTS := rfl
    have hc_le_p2 : ceilDiv size MAX_PARTS ≤ p2 :=
      le_min (le_max_right _ _) hc_le_max
    have hsize_le : size ≤ MAX_PARTS * partSizeOf threshold size := by
      calc size ≤ ceilDiv size MAX_PARTS * MAX_PARTS := le_ceilDiv_mul size MAX_PARTS hParts
        _ ≤ partSizeOf threshold size * MAX_PARTS :=
          Nat.mul_le_mul_right _ (le_trans hc_le_p2 hp2_le_ps)
        _ = MAX_PARTS * partSizeOf threshold size := Nat.mul_comm _ _
    unfold partCountOf
    rw [ceilDiv_le_iff _ _ _ hps_pos]
    exact hsize_le

/-- Witness for claim C9 at a concrete threshold and size. -/
theorem C9_part_size_witness :
    (1024 * 1024) ∣ partSizeOf 8388608 1000000000 ∧
    MIN_PART_SIZE ≤ partSizeOf 8388608 1000000000 ∧
    partSizeOf 8388608 1000000000 ≤ MAX_PART_SIZE ∧
    partCountOf 8388608 1000000000 ≤ MAX_PARTS :=
  C9_part_size_bounds 8388608 1000000000 (by decide) (by decide)

lemma partLe_trans (a b c : UploadPart) (h1 : partLe a b = true) (h2 : partLe b c = true) :
    partLe a c = true := by
  simp only [partLe, Nat.ble_eq] at h1 h2 ⊢
  omega

lemma partLe_total (a b : UploadPart) : (partLe a b || partLe b a) = true := by
  simp only [partLe, Bool.or_eq_true, Nat.ble_eq]
  omega

/-- Claim C10: on every valid completion payload whose sourceKey
passes the pattern check, the handler forwards exactly the input
parts, sorted in ascending partNumber order, each with its etag
normalized by stripping one leading and one trailing double quote when
present; an etag carrying neither boundary quote passes through
unchanged.  The forwarded list is a permutation of the normalized
input, so its content does not depend on the input order or quoting. -/
theorem C10_forwarded_parts_sorted_normalized :
    ∀ (p : CompletionPayload),
      completionValid p = true → sourceKeyOk p.sourceKey = true →
      ∃ l, completeMultipart p = CompletionResult.completed l ∧
        l.Pairwise (fun a b => a.partNumber ≤ b.partNumber) ∧
        l.Perm (p.parts.map (fun part => ⟨part.partNumber, normalizeEtag part.etag⟩)) ∧
        (∀ e : String, e.startsWith "\"" = false → e.endsWith "\"" = false →
          normalizeEtag e = e) := by
  intro p hval hkey
  refine ⟨(orderedParts p.parts).map
    (fun part => ⟨part.partNumber, normalizeEtag part.etag⟩), ?_, ?_, ?_, ?_⟩
  · simp [completeMultipart, hval, hkey]
  · rw [List.pairwise_map]
    have hs := List.sorted_mergeSort partLe_trans partLe_total p.parts
    exact hs.imp (fun h => by simpa [partLe, Nat.ble_eq] using h)
  · exact List.Perm.map _ (List.mergeSort_perm p.parts partLe)
  · intro e h1 h2
    simp [normalizeEtag, h1, h2]

/-- A concrete completion payload: parts out of order, one quoted and
one bare etag. -/
def completionExample : CompletionPayload :=
  { uploadId := "u-1"
    sourceKey :=
      "uploads/aaaaaaaaaaaaaaaaaaaaaaaaaaaaaaaaaaaaaaaaaaaaaaaaaaaaaaaaaaaaaaaa/doc.pdf"
    parts := [⟨2, "\"etag-two\""⟩, ⟨1, "etag-one"⟩] }

set_option maxRecDepth 4096 in
/-- Witness for claim C10 at the concrete payload. -/
theorem C10_forwarded_parts_witness :
    ∃ l, completeMultipart completionExample = CompletionResult.completed l ∧
      l.Pairwise (fun a b => a.partNumber ≤ b.partNumber) ∧
      l.Perm (completionExample.parts.map
        (fun part => ⟨part.partNumber, normalizeEtag part.etag⟩)) ∧
      (∀ e : String, e.startsWith "\"" = false → e.endsWith "\"" = false →
        normalizeEtag e = e) :=
  C10_forwarded_parts_sorted_normalized completionExample (by decide) (by decide)

end LedgerLift
